import Mathlib

/-!
# Dynamic audio policy mixes: `media/libaudioclient/include/media/AudioPolicy.h`

A shallow embedding of the header: the `RULE_*`, `MIX_*` and `MAX_*` constants, the
classes `AudioMixMatchCriterion` and `AudioMix` with their inline constructors, and the
inline route-flag predicates.  `uint32_t` values are natural numbers; none of the embedded
operations can overflow, so no reduction modulo `2^32` is needed.
-/

namespace android

/-! ## Constants (lines 33-71 of the header) -/

/-- Source: `#define RULE_EXCLUSION_MASK 0x8000`. -/
def RULE_EXCLUSION_MASK : Nat := 0x8000
/-- Source: `#define RULE_MATCH_ATTRIBUTE_USAGE 0x1`. -/
def RULE_MATCH_ATTRIBUTE_USAGE : Nat := 0x1
/-- Source: `#define RULE_MATCH_ATTRIBUTE_CAPTURE_PRESET (0x1 << 1)`. -/
def RULE_MATCH_ATTRIBUTE_CAPTURE_PRESET : Nat := 0x1 <<< 1
/-- Source: `#define RULE_MATCH_UID (0x1 << 2)`. -/
def RULE_MATCH_UID : Nat := 0x1 <<< 2
/-- Source: `#define RULE_MATCH_USERID (0x1 << 3)`. -/
def RULE_MATCH_USERID : Nat := 0x1 <<< 3
/-- Source: `#define RULE_MATCH_AUDIO_SESSION_ID (0x1 << 4)`. -/
def RULE_MATCH_AUDIO_SESSION_ID : Nat := 0x1 <<< 4
/-- Source: `(RULE_EXCLUSION_MASK|RULE_MATCH_ATTRIBUTE_USAGE)`. -/
def RULE_EXCLUDE_ATTRIBUTE_USAGE : Nat := RULE_EXCLUSION_MASK ||| RULE_MATCH_ATTRIBUTE_USAGE
/-- Source: `(RULE_EXCLUSION_MASK|RULE_MATCH_ATTRIBUTE_CAPTURE_PRESET)`. -/
def RULE_EXCLUDE_ATTRIBUTE_CAPTURE_PRESET : Nat :=
  RULE_EXCLUSION_MASK ||| RULE_MATCH_ATTRIBUTE_CAPTURE_PRESET
/-- Source: `(RULE_EXCLUSION_MASK|RULE_MATCH_UID)`. -/
def RULE_EXCLUDE_UID : Nat := RULE_EXCLUSION_MASK ||| RULE_MATCH_UID
/-- Source: `(RULE_EXCLUSION_MASK|RULE_MATCH_USERID)`. -/
def RULE_EXCLUDE_USERID : Nat := RULE_EXCLUSION_MASK ||| RULE_MATCH_USERID
/-- Source: `(RULE_EXCLUSION_MASK|RULE_MATCH_AUDIO_SESSION_ID)`. -/
def RULE_EXCLUDE_AUDIO_SESSION_ID : Nat := RULE_EXCLUSION_MASK ||| RULE_MATCH_AUDIO_SESSION_ID

/-- Source: `#define MIX_TYPE_INVALID (-1)`. -/
def MIX_TYPE_INVALID : Int := -1
/-- Source: `#define MIX_TYPE_PLAYERS 0`. -/
def MIX_TYPE_PLAYERS : Int := 0
/-- Source: `#define MIX_TYPE_RECORDERS 1`. -/
def MIX_TYPE_RECORDERS : Int := 1

/-- Source: `#define DYNAMIC_POLICY_EVENT_MIX_STATE_UPDATE 0`. -/
def DYNAMIC_POLICY_EVENT_MIX_STATE_UPDATE : Int := 0

/-- Source: `#define MIX_STATE_DISABLED (-1)`. -/
def MIX_STATE_DISABLED : Int := -1
/-- Source: `#define MIX_STATE_IDLE 0`. -/
def MIX_STATE_IDLE : Int := 0
/-- Source: `#define MIX_STATE_MIXING 1`. -/
def MIX_STATE_MIXING : Int := 1

/-- Source: `#define MIX_ROUTE_FLAG_RENDER 0x1`. -/
def MIX_ROUTE_FLAG_RENDER : Nat := 0x1
/-- Source: `#define MIX_ROUTE_FLAG_LOOP_BACK (0x1 << 1)`. -/
def MIX_ROUTE_FLAG_LOOP_BACK : Nat := 0x1 <<< 1
/-- Source: `(MIX_ROUTE_FLAG_RENDER | MIX_ROUTE_FLAG_LOOP_BACK)`. -/
def MIX_ROUTE_FLAG_LOOP_BACK_AND_RENDER : Nat :=
  MIX_ROUTE_FLAG_RENDER ||| MIX_ROUTE_FLAG_LOOP_BACK
/-- Source: `#define MIX_ROUTE_FLAG_DISALLOWS_PREFERRED_DEVICE (0x1 << 2)`. -/
def MIX_ROUTE_FLAG_DISALLOWS_PREFERRED_DEVICE : Nat := 0x1 <<< 2
/-- Source: `(MIX_ROUTE_FLAG_RENDER | MIX_ROUTE_FLAG_LOOP_BACK |
MIX_ROUTE_FLAG_DISALLOWS_PREFERRED_DEVICE)`. -/
def MIX_ROUTE_FLAG_ALL : Nat :=
  MIX_ROUTE_FLAG_RENDER ||| MIX_ROUTE_FLAG_LOOP_BACK ||| MIX_ROUTE_FLAG_DISALLOWS_PREFERRED_DEVICE

/-- Source: `#define MAX_MIXES_PER_POLICY 50`. -/
def MAX_MIXES_PER_POLICY : Nat := 50
/-- Source: `#define MAX_CRITERIA_PER_MIX 20`. -/
def MAX_CRITERIA_PER_MIX : Nat := 20

/-! ## Rule kinds -/

/-- The ten rule kinds the header defines, `RULE_MATCH_*` first, then `RULE_EXCLUDE_*`. -/
def definedRuleKinds : List Nat :=
  [RULE_MATCH_ATTRIBUTE_USAGE, RULE_MATCH_ATTRIBUTE_CAPTURE_PRESET, RULE_MATCH_UID,
   RULE_MATCH_USERID, RULE_MATCH_AUDIO_SESSION_ID,
   RULE_EXCLUDE_ATTRIBUTE_USAGE, RULE_EXCLUDE_ATTRIBUTE_CAPTURE_PRESET, RULE_EXCLUDE_UID,
   RULE_EXCLUDE_USERID, RULE_EXCLUDE_AUDIO_SESSION_ID]

/-- The five `RULE_MATCH_*` kinds paired with their `RULE_EXCLUDE_*` counterparts. -/
def ruleKindPairs : List (Nat × Nat) :=
  [(RULE_MATCH_ATTRIBUTE_USAGE, RULE_EXCLUDE_ATTRIBUTE_USAGE),
   (RULE_MATCH_ATTRIBUTE_CAPTURE_PRESET, RULE_EXCLUDE_ATTRIBUTE_CAPTURE_PRESET),
   (RULE_MATCH_UID, RULE_EXCLUDE_UID),
   (RULE_MATCH_USERID, RULE_EXCLUDE_USERID),
   (RULE_MATCH_AUDIO_SESSION_ID, RULE_EXCLUDE_AUDIO_SESSION_ID)]

/-- The field part of a 32-bit rule: the C expression `rule & ~RULE_EXCLUSION_MASK` on a
`uint32_t`, where `~RULE_EXCLUSION_MASK` is `0xFFFFFFFF ^ 0x8000`. -/
def ruleField (rule : Nat) : Nat := rule &&& (0xFFFFFFFF ^^^ RULE_EXCLUSION_MASK)

/-- Number of set bits among the 32 bits of a `uint32_t`. -/
def bitCount32 (n : Nat) : Nat := ((List.range 32).filter (fun i => n.testBit i)).length

/-! ## Classes (lines 73-136 of the header) -/

/-- Class `AudioMixMatchCriterion`.  `mValue` is the 32-bit word shared by the union members
`mUsage`, `mSource`, `mUid`, `mUserId` and `mAudioSessionId`; `mRule` is the `uint32_t` rule. -/
structure AudioMixMatchCriterion where
  mValue : Nat
  mRule : Nat
deriving DecidableEq, Repr

/-- Union member `mValue.mUid`. -/
def AudioMixMatchCriterion.mUid (self : AudioMixMatchCriterion) : Nat := self.mValue

/-- Source: `static const uint32_t kCbFlagNotifyActivity = 0x1;`. -/
def AudioMix.kCbFlagNotifyActivity : Nat := 0x1

/-- Class `AudioMix`, fields in declaration order.  `audio_config_t` comes from
`system/audio.h` and is carried uninterpreted, so it is a type parameter; `mToken` is an
`sp<IBinder>`, with `none` for the null pointer.  The two booleans carry the default member
initialisers `= false` of the header. -/
structure AudioMix (audio_config_t : Type) where
  mCriteria : List AudioMixMatchCriterion
  mMixType : Nat
  mFormat : audio_config_t
  mRouteFlags : Nat
  mDeviceType : Nat
  mDeviceAddress : String
  mCbFlags : Nat
  mToken : Option Nat
  mAllowPrivilegedMediaPlaybackCapture : Bool := false
  mVoiceCommunicationCaptureAllowed : Bool := false

/-- The default constructor `AudioMix() {}`.  The vector, the string and the strong pointer
are default-constructed (empty, empty, null); the scalar members without an initialiser hold
indeterminate values, passed here as the `indet*` arguments; the two booleans take their
default member initialisers. -/
def AudioMix.AudioMix_default {audio_config_t : Type}
    (indetMixType : Nat) (indetFormat : audio_config_t)
    (indetRouteFlags indetDeviceType indetCbFlags : Nat) : AudioMix audio_config_t :=
  { mCriteria := [], mMixType := indetMixType, mFormat := indetFormat,
    mRouteFlags := indetRouteFlags, mDeviceType := indetDeviceType,
    mDeviceAddress := "", mCbFlags := indetCbFlags, mToken := none }

/-- The six-argument constructor `AudioMix(criteria, mixType, format, routeFlags,
registrationId, flags)`, with the member initialiser list
`mCriteria(criteria), mMixType(mixType), mFormat(format), mRouteFlags(routeFlags),
mDeviceAddress(registrationId), mCbFlags(flags)`.  `mDeviceType` is not initialised and holds
the indeterminate value `indetDeviceType`; `mToken` is null; the two booleans take their
default member initialisers. -/
def AudioMix.AudioMix_init {audio_config_t : Type} (indetDeviceType : Nat)
    (criteria : List AudioMixMatchCriterion) (mixType : Nat) (format : audio_config_t)
    (routeFlags : Nat) (registrationId : String) (flags : Nat) : AudioMix audio_config_t :=
  { mCriteria := criteria, mMixType := mixType, mFormat := format,
    mRouteFlags := routeFlags, mDeviceType := indetDeviceType,
    mDeviceAddress := registrationId, mCbFlags := flags, mToken := none }

/-! ## Inline route-flag predicates (lines 145-158 of the header) -/

/-- Source: `return (routeFlags & MIX_ROUTE_FLAG_LOOP_BACK_AND_RENDER)
== MIX_ROUTE_FLAG_LOOP_BACK_AND_RENDER;`. -/
def is_mix_loopback_render (routeFlags : Nat) : Bool :=
  (routeFlags &&& MIX_ROUTE_FLAG_LOOP_BACK_AND_RENDER) == MIX_ROUTE_FLAG_LOOP_BACK_AND_RENDER

/-- Source: `return (routeFlags & MIX_ROUTE_FLAG_LOOP_BACK) == MIX_ROUTE_FLAG_LOOP_BACK;`. -/
def is_mix_loopback (routeFlags : Nat) : Bool :=
  (routeFlags &&& MIX_ROUTE_FLAG_LOOP_BACK) == MIX_ROUTE_FLAG_LOOP_BACK

/-- Source: `return (routeFlags & MIX_ROUTE_FLAG_DISALLOWS_PREFERRED_DEVICE)
== MIX_ROUTE_FLAG_DISALLOWS_PREFERRED_DEVICE;`. -/
def is_mix_disallows_preferred_device (routeFlags : Nat) : Bool :=
  (routeFlags &&& MIX_ROUTE_FLAG_DISALLOWS_PREFERRED_DEVICE)
    == MIX_ROUTE_FLAG_DISALLOWS_PREFERRED_DEVICE

/-! ## Methods declared in the header whose bodies live in `AudioPolicy.cpp` -/

/-- Modelled from the spec: the body of `AudioMixMatchCriterion::isExcludeCriterion`, of which
the header has only the declaration `bool isExcludeCriterion() const;`.  Spec 4.1: it
"returns true iff the exclusion bit of `ruleKind` is set - pure, no side effects".  The
result is paired with the receiver as it is after the call. -/
def AudioMixMatchCriterion.isExcludeCriterion (self : AudioMixMatchCriterion) :
    Bool × AudioMixMatchCriterion :=
  ((self.mRule &&& RULE_EXCLUSION_MASK) != 0, self)

/-- Modelled from the spec: the notion of a "UID-field criterion" used by spec 4.2, which no
function of the header computes.  Spec 3: `ruleKind` has "two independent axes: which field
this criterion addresses ... and an exclusion flag"; a criterion addresses the UID field
when the field part of its rule is `RULE_MATCH_UID`, whatever its polarity. -/
def AudioMixMatchCriterion.isUidCriterion (self : AudioMixMatchCriterion) : Bool :=
  ruleField self.mRule == RULE_MATCH_UID

/-- Modelled from the spec: the "insert or replace" step shared by `setMatchUid` and
`setExcludeUid`, whose bodies are not in the header.  Spec 4.2: "Only one UID-field
criterion may exist per Mix - setting a new one replaces any prior UID criterion, regardless
of its polarity": every UID-field criterion is dropped, the criteria of the other fields keep
their order, and the new criterion is added at the end. -/
def replaceUidCriterion (criteria : List AudioMixMatchCriterion)
    (crit : AudioMixMatchCriterion) : List AudioMixMatchCriterion :=
  criteria.filter (fun c => !c.isUidCriterion) ++ [crit]

/-- Modelled from the spec: the body of `AudioMix::setExcludeUid` (declared
`void setExcludeUid(uid_t uid);`).  Spec 4.2: "insert or replace the UID-field criterion with
the requested polarity"; the new criterion has rule `RULE_EXCLUDE_UID` and value `uid`. -/
def AudioMix.setExcludeUid {audio_config_t : Type} (self : AudioMix audio_config_t)
    (uid : Nat) : AudioMix audio_config_t :=
  { self with mCriteria := replaceUidCriterion self.mCriteria ⟨uid, RULE_EXCLUDE_UID⟩ }

/-- Modelled from the spec: the body of `AudioMix::setMatchUid` (declared
`void setMatchUid(uid_t uid);`).  Spec 4.2: "insert or replace the UID-field criterion with
the requested polarity"; the new criterion has rule `RULE_MATCH_UID` and value `uid`. -/
def AudioMix.setMatchUid {audio_config_t : Type} (self : AudioMix audio_config_t)
    (uid : Nat) : AudioMix audio_config_t :=
  { self with mCriteria := replaceUidCriterion self.mCriteria ⟨uid, RULE_MATCH_UID⟩ }

/-- Modelled from the spec: the body of `AudioMix::hasUidRule` (declared
`bool hasUidRule(bool match, uid_t uid) const;`).  Spec 4.2: "true iff a UID criterion exists
whose polarity equals `match` and whose value equals `uid`"; the polarity of a criterion is
"match" when it is not an exclusion criterion. -/
def AudioMix.hasUidRule {audio_config_t : Type} (self : AudioMix audio_config_t)
    (isMatch : Bool) (uid : Nat) : Bool :=
  self.mCriteria.any (fun c =>
    c.isUidCriterion && ((!c.isExcludeCriterion.1) == isMatch) && (c.mUid == uid))

/-- Modelled from the spec: the body of `AudioMix::hasMatchUidRule` (declared
`bool hasMatchUidRule() const;`).  Spec 4.2: "true iff any non-exclusion UID criterion
exists, any value". -/
def AudioMix.hasMatchUidRule {audio_config_t : Type} (self : AudioMix audio_config_t) : Bool :=
  self.mCriteria.any (fun c => c.isUidCriterion && !c.isExcludeCriterion.1)

/-! ## Auxiliary facts on bit masks and on `replaceUidCriterion` -/

theorem and_three_eq_mod (r : Nat) : r &&& 3 = r % 4 := by
  have h := Nat.and_pow_two_sub_one_eq_mod r 2
  simpa using h

theorem and_two_pow_eq (r k : Nat) : r &&& 2 ^ k = if r.testBit k then 2 ^ k else 0 := by
  apply Nat.eq_of_testBit_eq
  intro i
  rw [Nat.testBit_and]
  by_cases hi : k = i
  · subst hi
    cases h : r.testBit k <;> simp [h]
  · rw [Nat.testBit_two_pow_of_ne hi]
    cases h : r.testBit k <;> simp [h, Nat.testBit_two_pow_of_ne hi]

theorem replaceUidCriterion_filter (criteria : List AudioMixMatchCriterion)
    (crit : AudioMixMatchCriterion) (h : crit.isUidCriterion = true) :
    (replaceUidCriterion criteria crit).filter (fun c => c.isUidCriterion) = [crit] := by
  have hnil : List.filter (fun c => c.isUidCriterion)
      (List.filter (fun c => !c.isUidCriterion) criteria) = [] := by
    rw [List.filter_eq_nil_iff]
    intro a ha
    have hp := (List.mem_filter.mp ha).2
    simpa using hp
  unfold replaceUidCriterion
  rw [List.filter_append, hnil]
  simp [List.filter_cons, h]

theorem replaceUidCriterion_any (criteria : List AudioMixMatchCriterion)
    (crit : AudioMixMatchCriterion) (p : AudioMixMatchCriterion → Bool)
    (hp : ∀ c, p c = true → c.isUidCriterion = true) :
    (replaceUidCriterion criteria crit).any p = p crit := by
  have hfalse : (List.filter (fun c => !c.isUidCriterion) criteria).any p = false := by
    rw [List.any_eq_false]
    intro a ha hpa
    have hq := (List.mem_filter.mp ha).2
    have hu := hp a hpa
    simp [hu] at hq
  unfold replaceUidCriterion
  rw [List.any_append, hfalse]
  simp

/-! ## Theorems on the constants -/

/-- C1: the wire-contract constants have the listed values: the five field selectors are
bits 0 to 4 (1, 2, 4, 8, 16), the exclusion mask is 0x8000, the mix-type codes are -1, 0, 1,
the mix-state codes are -1, 0, 1, the route-flag bits are 0x1, 0x2, 0x4, and the limits are
20 criteria per mix and 50 mixes per policy. -/
theorem wire_constants_values :
    (RULE_MATCH_ATTRIBUTE_USAGE = 2 ^ 0 ∧ RULE_MATCH_ATTRIBUTE_CAPTURE_PRESET = 2 ^ 1 ∧
      RULE_MATCH_UID = 2 ^ 2 ∧ RULE_MATCH_USERID = 2 ^ 3 ∧
      RULE_MATCH_AUDIO_SESSION_ID = 2 ^ 4) ∧
    (RULE_MATCH_ATTRIBUTE_USAGE = 1 ∧ RULE_MATCH_ATTRIBUTE_CAPTURE_PRESET = 2 ∧
      RULE_MATCH_UID = 4 ∧ RULE_MATCH_USERID = 8 ∧ RULE_MATCH_AUDIO_SESSION_ID = 16) ∧
    RULE_EXCLUSION_MASK = 0x8000 ∧
    (MIX_TYPE_INVALID = -1 ∧ MIX_TYPE_PLAYERS = 0 ∧ MIX_TYPE_RECORDERS = 1) ∧
    (MIX_STATE_DISABLED = -1 ∧ MIX_STATE_IDLE = 0 ∧ MIX_STATE_MIXING = 1) ∧
    (MIX_ROUTE_FLAG_RENDER = 0x1 ∧ MIX_ROUTE_FLAG_LOOP_BACK = 0x2 ∧
      MIX_ROUTE_FLAG_DISALLOWS_PREFERRED_DEVICE = 0x4) ∧
    MAX_CRITERIA_PER_MIX = 20 ∧ MAX_MIXES_PER_POLICY = 50 := by
  decide

/-- C2: for each of the ten defined rule kinds the field part (exclusion bit cleared) has
exactly one bit set; the five field bits are pairwise distinct; clearing the exclusion bit
of `RULE_EXCLUDE_X` gives `RULE_MATCH_X`, the two differ exactly in the exclusion bit, and no
`RULE_MATCH_X` has the exclusion bit set. -/
theorem rule_kinds_one_hot :
    (∀ r ∈ definedRuleKinds, bitCount32 (ruleField r) = 1) ∧
    (ruleKindPairs.map (fun p => ruleField p.1)).Nodup ∧
    (∀ p ∈ ruleKindPairs,
      ruleField p.2 = p.1 ∧ p.2 ^^^ p.1 = RULE_EXCLUSION_MASK ∧
      p.1 &&& RULE_EXCLUSION_MASK = 0 ∧ ruleField p.1 = p.1) ∧
    definedRuleKinds = ruleKindPairs.map Prod.fst ++ ruleKindPairs.map Prod.snd := by
  decide

/-- C3 as stated fails: clearing the exclusion bit of `RULE_MATCH_AUDIO_SESSION_ID` (and of
`RULE_EXCLUDE_AUDIO_SESSION_ID`) leaves 16, which is not below 16, so not every defined rule
kind has its field selector inside bits 0..3. -/
theorem rule_field_not_within_four_bits :
    RULE_MATCH_AUDIO_SESSION_ID ∈ definedRuleKinds ∧
    ruleField RULE_MATCH_AUDIO_SESSION_ID = 16 ∧
    ruleField RULE_EXCLUDE_AUDIO_SESSION_ID = 16 ∧
    ¬ (∀ r ∈ definedRuleKinds, ruleField r < 16) := by
  decide

/-- C3 amended: the field selector occupies the 5 low bits: for every defined rule kind,
clearing the exclusion bit leaves a value whose set bits all lie in bits 0..4 (the value is
unchanged by masking with 0x1F and is less than 32). -/
theorem rule_field_within_five_bits (r : Nat) (h : r ∈ definedRuleKinds) :
    ruleField r &&& 0x1F = ruleField r ∧ ruleField r < 32 := by
  revert r
  decide

/-- C3 amended, at `RULE_EXCLUDE_AUDIO_SESSION_ID`: its field part is 16, inside bits 0..4. -/
theorem rule_field_within_five_bits_witness :
    RULE_EXCLUDE_AUDIO_SESSION_ID ∈ definedRuleKinds ∧
    (ruleField RULE_EXCLUDE_AUDIO_SESSION_ID &&& 0x1F = ruleField RULE_EXCLUDE_AUDIO_SESSION_ID ∧
      ruleField RULE_EXCLUDE_AUDIO_SESSION_ID < 32) :=
  ⟨by decide, rule_field_within_five_bits RULE_EXCLUDE_AUDIO_SESSION_ID (by decide)⟩


/-! ## Theorems on the route-flag predicates -/

/-- C4: for every route-flag word (every natural number, so every 32-bit unsigned value),
`is_mix_loopback_render` is true exactly when both the render bit (bit 0, 0x1) and the
loop-back bit (bit 1, 0x2) are set, whatever the other bits are (the result depends on the
two low bits only); it is true for
`MIX_ROUTE_FLAG_LOOP_BACK_AND_RENDER` and `MIX_ROUTE_FLAG_ALL`, false for
`MIX_ROUTE_FLAG_RENDER` alone and for `MIX_ROUTE_FLAG_LOOP_BACK` alone. -/
theorem is_mix_loopback_render_iff (routeFlags : Nat) :
    (is_mix_loopback_render routeFlags = true ↔
      (routeFlags.testBit 0 = true ∧ routeFlags.testBit 1 = true)) ∧
    (is_mix_loopback_render routeFlags = true ↔
      (routeFlags &&& MIX_ROUTE_FLAG_RENDER = MIX_ROUTE_FLAG_RENDER ∧
        routeFlags &&& MIX_ROUTE_FLAG_LOOP_BACK = MIX_ROUTE_FLAG_LOOP_BACK)) ∧
    is_mix_loopback_render routeFlags = is_mix_loopback_render (routeFlags % 4) ∧
    is_mix_loopback_render MIX_ROUTE_FLAG_LOOP_BACK_AND_RENDER = true ∧
    is_mix_loopback_render MIX_ROUTE_FLAG_ALL = true ∧
    is_mix_loopback_render MIX_ROUTE_FLAG_RENDER = false ∧
    is_mix_loopback_render MIX_ROUTE_FLAG_LOOP_BACK = false := by
  have hc : MIX_ROUTE_FLAG_LOOP_BACK_AND_RENDER = 3 := by decide
  have hr : MIX_ROUTE_FLAG_RENDER = 2 ^ 0 := by decide
  have hl : MIX_ROUTE_FLAG_LOOP_BACK = 2 ^ 1 := by decide
  have key : is_mix_loopback_render routeFlags = true ↔
      (routeFlags.testBit 0 = true ∧ routeFlags.testBit 1 = true) := by
    unfold is_mix_loopback_render
    rw [hc, and_three_eq_mod, Nat.testBit_zero, Nat.testBit_to_div_mod]
    simp only [beq_iff_eq, decide_eq_true_eq]
    omega
  refine ⟨key, ?_, ?_, by decide, by decide, by decide, by decide⟩
  · rw [key, hr, hl, and_two_pow_eq, and_two_pow_eq]
    cases h0 : routeFlags.testBit 0 <;> cases h1 : routeFlags.testBit 1 <;> simp
  · unfold is_mix_loopback_render
    rw [hc, and_three_eq_mod, and_three_eq_mod, Nat.mod_mod]

/-- C9: for every route-flag word (every natural number, so every 32-bit unsigned value),
`is_mix_loopback` is true exactly when the loop-back bit (bit 1, 0x2) is set, and `is_mix_loopback_render` equals `is_mix_loopback` together with the
render bit (bit 0, 0x1) being set; hence `is_mix_loopback_render` implies `is_mix_loopback`,
and `is_mix_loopback` is false for `MIX_ROUTE_FLAG_RENDER` alone. -/
theorem is_mix_loopback_iff (routeFlags : Nat) :
    (is_mix_loopback routeFlags = true ↔ routeFlags.testBit 1 = true) ∧
    is_mix_loopback_render routeFlags =
      (is_mix_loopback routeFlags && routeFlags.testBit 0) ∧
    (is_mix_loopback_render routeFlags = true → is_mix_loopback routeFlags = true) ∧
    is_mix_loopback MIX_ROUTE_FLAG_RENDER = false := by
  have hc : MIX_ROUTE_FLAG_LOOP_BACK_AND_RENDER = 3 := by decide
  have hl : MIX_ROUTE_FLAG_LOOP_BACK = 2 ^ 1 := by decide
  have hloop : is_mix_loopback routeFlags = routeFlags.testBit 1 := by
    unfold is_mix_loopback
    rw [hl, and_two_pow_eq]
    cases h1 : routeFlags.testBit 1 <;> simp
  have hrender : is_mix_loopback_render routeFlags =
      (routeFlags.testBit 1 && routeFlags.testBit 0) := by
    unfold is_mix_loopback_render
    rw [hc, and_three_eq_mod, Nat.testBit_zero, Nat.testBit_to_div_mod, Bool.eq_iff_iff]
    simp only [beq_iff_eq, Bool.and_eq_true, decide_eq_true_eq]
    omega
  refine ⟨by rw [hloop], by rw [hrender, hloop], ?_, by decide⟩
  rw [hrender, hloop]
  intro h
  exact (Bool.and_eq_true _ _ ▸ h).1

/-! ## Theorems on the constructors -/

/-- C5: the Mix built by the six-argument constructor has its criteria sequence equal to the
given one (same elements, order and length), its mix type, format and route flags equal to
the given ones, its callback flags equal to `flags`, and its device address equal to
`registrationId`. -/
theorem AudioMix_init_fields {audio_config_t : Type} (indetDeviceType : Nat)
    (criteria : List AudioMixMatchCriterion) (mixType : Nat) (format : audio_config_t)
    (routeFlags : Nat) (registrationId : String) (flags : Nat) :
    (AudioMix.AudioMix_init indetDeviceType criteria mixType format routeFlags
        registrationId flags).mCriteria = criteria ∧
    (AudioMix.AudioMix_init indetDeviceType criteria mixType format routeFlags
        registrationId flags).mCriteria.length = criteria.length ∧
    (AudioMix.AudioMix_init indetDeviceType criteria mixType format routeFlags
        registrationId flags).mMixType = mixType ∧
    (AudioMix.AudioMix_init indetDeviceType criteria mixType format routeFlags
        registrationId flags).mFormat = format ∧
    (AudioMix.AudioMix_init indetDeviceType criteria mixType format routeFlags
        registrationId flags).mRouteFlags = routeFlags ∧
    (AudioMix.AudioMix_init indetDeviceType criteria mixType format routeFlags
        registrationId flags).mCbFlags = flags ∧
    (AudioMix.AudioMix_init indetDeviceType criteria mixType format routeFlags
        registrationId flags).mDeviceAddress = registrationId :=
  ⟨rfl, rfl, rfl, rfl, rfl, rfl, rfl⟩

/-- C6 as stated fails: the six-argument constructor given 21 criteria builds a Mix with 21
criteria, more than `MAX_CRITERIA_PER_MIX`. -/
theorem AudioMix_init_exceeds_max_criteria :
    (List.replicate 21 (AudioMixMatchCriterion.mk 1000 RULE_MATCH_UID)).length = 21 ∧
    (AudioMix.AudioMix_init 0 (List.replicate 21 (AudioMixMatchCriterion.mk 1000 RULE_MATCH_UID))
        0 () MIX_ROUTE_FLAG_RENDER "addr" 0).mCriteria.length = 21 ∧
    ¬ ((AudioMix.AudioMix_init 0 (List.replicate 21 (AudioMixMatchCriterion.mk 1000 RULE_MATCH_UID))
        0 () MIX_ROUTE_FLAG_RENDER "addr" 0).mCriteria.length ≤ MAX_CRITERIA_PER_MIX) := by
  decide

/-- C6 amended: the six-argument constructor does not enforce the limit; the Mix it builds
has as many criteria as the sequence it was given, so its criteria count is at most
`MAX_CRITERIA_PER_MIX` (20) exactly when the given sequence has at most 20 elements. -/
theorem AudioMix_init_criteria_count {audio_config_t : Type} (indetDeviceType : Nat)
    (criteria : List AudioMixMatchCriterion) (mixType : Nat) (format : audio_config_t)
    (routeFlags : Nat) (registrationId : String) (flags : Nat) :
    (AudioMix.AudioMix_init indetDeviceType criteria mixType format routeFlags
        registrationId flags).mCriteria.length = criteria.length ∧
    ((AudioMix.AudioMix_init indetDeviceType criteria mixType format routeFlags
        registrationId flags).mCriteria.length ≤ MAX_CRITERIA_PER_MIX ↔
      criteria.length ≤ 20) :=
  ⟨rfl, Iff.rfl⟩

/-- C10: a newly constructed Mix relaxes no privacy restriction: after the default
constructor and after the six-argument constructor, with any arguments,
`mAllowPrivilegedMediaPlaybackCapture` and `mVoiceCommunicationCaptureAllowed` are false. -/
theorem new_mix_relaxes_no_privacy_restriction {audio_config_t : Type}
    (indetMixType : Nat) (indetFormat : audio_config_t)
    (indetRouteFlags indetDeviceType indetCbFlags : Nat)
    (criteria : List AudioMixMatchCriterion) (mixType : Nat) (format : audio_config_t)
    (routeFlags : Nat) (registrationId : String) (flags : Nat) :
    ((AudioMix.AudioMix_default indetMixType indetFormat indetRouteFlags indetDeviceType
        indetCbFlags).mAllowPrivilegedMediaPlaybackCapture = false ∧
      (AudioMix.AudioMix_default indetMixType indetFormat indetRouteFlags indetDeviceType
        indetCbFlags).mVoiceCommunicationCaptureAllowed = false) ∧
    ((AudioMix.AudioMix_init indetDeviceType criteria mixType format routeFlags
        registrationId flags).mAllowPrivilegedMediaPlaybackCapture = false ∧
      (AudioMix.AudioMix_init indetDeviceType criteria mixType format routeFlags
        registrationId flags).mVoiceCommunicationCaptureAllowed = false) :=
  ⟨⟨rfl, rfl⟩, ⟨rfl, rfl⟩⟩

/-! ## Theorems on the criterion and UID-rule methods -/

/-- C7: for every criterion, `isExcludeCriterion()` returns true exactly when the exclusion
bit (bit 15, `RULE_EXCLUSION_MASK` = 0x8000) of its rule is set, and the criterion is
unchanged by the call; so it is true for each `RULE_EXCLUDE_*` rule kind and false for each
`RULE_MATCH_*` rule kind, whatever the value. -/
theorem isExcludeCriterion_iff (c : AudioMixMatchCriterion) :
    (c.isExcludeCriterion.1 = true ↔ c.mRule.testBit 15 = true) ∧
    (c.isExcludeCriterion.1 = true ↔
      c.mRule &&& RULE_EXCLUSION_MASK = RULE_EXCLUSION_MASK) ∧
    c.isExcludeCriterion.2 = c ∧
    (∀ p ∈ ruleKindPairs, ∀ v : Nat,
      (AudioMixMatchCriterion.mk v p.2).isExcludeCriterion.1 = true ∧
      (AudioMixMatchCriterion.mk v p.1).isExcludeCriterion.1 = false) := by
  have hm : RULE_EXCLUSION_MASK = 2 ^ 15 := by decide
  refine ⟨?_, ?_, rfl, ?_⟩
  · unfold AudioMixMatchCriterion.isExcludeCriterion
    rw [hm, and_two_pow_eq]
    cases h : c.mRule.testBit 15 <;> simp
  · unfold AudioMixMatchCriterion.isExcludeCriterion
    rw [hm, and_two_pow_eq]
    cases h : c.mRule.testBit 15 <;> simp
  · have hpairs : ∀ p ∈ ruleKindPairs,
        ((p.2 &&& RULE_EXCLUSION_MASK) != 0) = true ∧
        ((p.1 &&& RULE_EXCLUSION_MASK) != 0) = false := by decide
    intro p hp v
    exact hpairs p hp

/-- C8: for every Mix and every uid `u`, `setExcludeUid(u)` followed by `setMatchUid(u)`
leaves exactly one UID-field criterion, an inclusion criterion with value `u`; afterwards
`hasUidRule(false, u)` is false, `hasUidRule(true, u)` is true and `hasMatchUidRule()` is
true. -/
theorem setExcludeUid_then_setMatchUid {audio_config_t : Type} (m : AudioMix audio_config_t)
    (u : Nat) :
    ((m.setExcludeUid u).setMatchUid u).mCriteria.filter (fun c => c.isUidCriterion)
      = [AudioMixMatchCriterion.mk u RULE_MATCH_UID] ∧
    (((m.setExcludeUid u).setMatchUid u).mCriteria.filter
      (fun c => c.isUidCriterion)).length = 1 ∧
    (AudioMixMatchCriterion.mk u RULE_MATCH_UID).isExcludeCriterion.1 = false ∧
    (AudioMixMatchCriterion.mk u RULE_MATCH_UID).mUid = u ∧
    ((m.setExcludeUid u).setMatchUid u).hasUidRule false u = false ∧
    ((m.setExcludeUid u).setMatchUid u).hasUidRule true u = true ∧
    ((m.setExcludeUid u).setMatchUid u).hasMatchUidRule = true := by
  have huid : (AudioMixMatchCriterion.mk u RULE_MATCH_UID).isUidCriterion = true := by
    show (ruleField RULE_MATCH_UID == RULE_MATCH_UID) = true
    decide
  have hexc : (AudioMixMatchCriterion.mk u RULE_MATCH_UID).isExcludeCriterion.1 = false := by
    have hfst : ∀ r : Nat, (AudioMixMatchCriterion.mk u r).isExcludeCriterion.1
        = ((r &&& RULE_EXCLUSION_MASK) != 0) := fun _ => rfl
    rw [hfst]
    decide
  have hfil := replaceUidCriterion_filter (m.setExcludeUid u).mCriteria
    (AudioMixMatchCriterion.mk u RULE_MATCH_UID) huid
  refine ⟨hfil, ?_, hexc, rfl, ?_, ?_, ?_⟩
  · show (List.filter (fun c => c.isUidCriterion)
      (replaceUidCriterion (m.setExcludeUid u).mCriteria _)).length = 1
    rw [hfil]
    rfl
  · show (replaceUidCriterion (m.setExcludeUid u).mCriteria _).any _ = false
    rw [replaceUidCriterion_any]
    · simp [huid, hexc]
    · intro c hc
      simp only [Bool.and_eq_true] at hc
      exact hc.1.1
  · show (replaceUidCriterion (m.setExcludeUid u).mCriteria _).any _ = true
    rw [replaceUidCriterion_any]
    · simp [huid, hexc, AudioMixMatchCriterion.mUid]
    · intro c hc
      simp only [Bool.and_eq_true] at hc
      exact hc.1.1
  · show (replaceUidCriterion (m.setExcludeUid u).mCriteria _).any _ = true
    rw [replaceUidCriterion_any]
    · simp [huid, hexc]
    · intro c hc
      simp only [Bool.and_eq_true] at hc
      exact hc.1

end android
